import Mathlib

/-!
Shallow embedding of the access-control and audit subsystem of the
shadi-recommendation repository (`src/lib/security/*`).

Conventions of the embedding:
- JavaScript exceptions are modelled with `Except String`: a `.error e`
  value is a raised exception carrying message `e`; `await` of a rejected
  promise propagates the `.error`. A JS `try/catch` is `tryCatchE`.
- The Supabase collaborator (auth calls, table lookups, inserts) and the
  request-header collaborator are oracles passed in as parameters; each
  oracle answer is an `Except` so that an oracle can either return a value
  (possibly an error-as-value, as supabase-js does) or raise.
- Wall-clock time (`Date.now()`) is an explicit `now : Nat` parameter in
  milliseconds.
- Side effects that the claims observe (sign-out calls, durable-storage
  write batches, emitted security events) are returned as explicit lists.
-/

-- ─── JS exception plumbing ───────────────────────────────────────────────

deriving instance DecidableEq for Except

/-- Model of a JS `try { body } catch (e) { handler }` expression. -/
def tryCatchE {α : Type} (body : Except String α) (handler : String → Except String α) :
    Except String α :=
  match body with
  | .error e => handler e
  | .ok a => .ok a

/-- Model of JS `String.prototype.includes`: substring containment. -/
def strIncludes (s pat : String) : Bool :=
  (s.splitOn pat).length != 1 || pat == ""

-- ─── Audit data model (src/lib/security/audit.ts) ───────────────────────

/-- The closed `AuditAction` taxonomy. -/
inductive AuditAction
  | auth_login | auth_logout | auth_signup | auth_password_reset
  | auth_password_change | auth_failed_login
  | profile_view | profile_update | profile_delete
  | data_create | data_update | data_delete | data_export
  | admin_role_change | admin_user_delete | admin_settings_update
  | admin_impersonation
  | security_rate_limit | security_csrf_blocked | security_unauthorized
  | security_suspicious
deriving Repr, DecidableEq

/-- The four-value `AuditSeverity` enumeration. -/
inductive AuditSeverity
  | info | warning | error | critical
deriving Repr, DecidableEq

/-- A metadata value in a `Record<string, unknown>` payload. -/
inductive MetaVal
  | s : String → MetaVal
  | n : Nat → MetaVal
  | b : Bool → MetaVal
  | strRecord : List (String × String) → MetaVal
deriving Repr, DecidableEq

/-- Free-form structured metadata payload. -/
abbrev Metadata : Type := List (String × MetaVal)

/-- The static action-to-severity table `ACTION_SEVERITY`. -/
def ACTION_SEVERITY : AuditAction → AuditSeverity
  | .auth_login => .info
  | .auth_logout => .info
  | .auth_signup => .info
  | .auth_password_reset => .warning
  | .auth_password_change => .warning
  | .auth_failed_login => .warning
  | .profile_view => .info
  | .profile_update => .info
  | .profile_delete => .warning
  | .data_create => .info
  | .data_update => .info
  | .data_delete => .warning
  | .data_export => .warning
  | .admin_role_change => .critical
  | .admin_user_delete => .critical
  | .admin_settings_update => .warning
  | .admin_impersonation => .critical
  | .security_rate_limit => .warning
  | .security_csrf_blocked => .error
  | .security_unauthorized => .error
  | .security_suspicious => .critical

/-- An `AuditLogEntry` record. -/
structure AuditLogEntry where
  timestamp : String
  action : AuditAction
  severity : AuditSeverity
  user_id : Option String
  target_id : Option String := none
  target_type : Option String := none
  ip_address : Option String
  user_agent : Option String
  metadata : Metadata
  success : Bool
  error_message : Option String := none
deriving Repr, DecidableEq

-- ─── Request-context helper (audit.ts getRequestContext) ────────────────

/-- Answers of the `headers()` collaborator: header name to value. -/
def HeadersOracle : Type := String → Option String

/-- Best-effort request provenance. -/
structure ReqCtx where
  ip : Option String
  userAgent : Option String
deriving Repr, DecidableEq

/-- `getRequestContext`: reads forwarded-for / real-ip / user-agent headers,
returning nulls when the header collaborator raises. -/
def getRequestContext (h : Except String HeadersOracle) : ReqCtx :=
  match h with
  | .error _ => ⟨none, none⟩
  | .ok hl =>
    ⟨(((hl "x-forwarded-for").map (fun s => (s.splitOn ",").headD "")).or (hl "x-real-ip")),
     hl "user-agent"⟩

-- ─── Audit Logger (audit.ts class AuditLogger) ──────────────────────────

/-- Answer of the durable-storage bulk insert: `.error` is a raised
exception, `.ok (some m)` a supabase error value with message `m`,
`.ok none` success. -/
def DbOracle : Type := List AuditLogEntry → Except String (Option String)

/-- Mutable state of the `AuditLogger` singleton: the in-memory buffer and
whether the delayed-flush timer handle is set. -/
structure LoggerState where
  buffer : List AuditLogEntry
  flushTimeout : Bool
deriving Repr, DecidableEq

/-- `BUFFER_SIZE` constant. -/
def BUFFER_SIZE : Nat := 10

/-- Result of an audit-logger step: the JS outcome (normal return or raised
exception), the successor logger state, and the batches passed to the
durable-storage insert during the step. -/
structure LoggerStep where
  outcome : Except String Unit
  state : LoggerState
  writes : List (List AuditLogEntry)
deriving Repr, DecidableEq

namespace AuditLogger

/-- `AuditLogger.writeToDatabase`: bulk insert wrapped in try/catch; an
error value is only console-logged, an exception is swallowed. -/
def writeToDatabase (db : DbOracle) (st : LoggerState) (entries : List AuditLogEntry) :
    LoggerStep :=
  let outcome := tryCatchE
    (match db entries with
     | .error e => .error e
     | .ok _errVal => .ok ())
    (fun _ => .ok ())
  ⟨outcome, st, [entries]⟩

/-- `AuditLogger.flush`: clear the timer, then write the whole buffer (if
nonempty) as one batch and empty it. -/
def flush (db : DbOracle) (st : LoggerState) : LoggerStep :=
  let st1 : LoggerState := { st with flushTimeout := false }
  if st1.buffer.length = 0 then ⟨.ok (), st1, []⟩
  else
    let entries := st1.buffer
    let st2 : LoggerState := { st1 with buffer := [] }
    writeToDatabase db st2 entries

/-- `AuditLogger.log`: critical entries are written immediately; others are
buffered, with a size-triggered flush and a delayed-flush timer. -/
def log (db : DbOracle) (st : LoggerState) (entry : AuditLogEntry) : LoggerStep :=
  if entry.severity = .critical then
    writeToDatabase db st [entry]
  else
    let st1 : LoggerState := { st with buffer := st.buffer ++ [entry] }
    if BUFFER_SIZE ≤ st1.buffer.length then
      flush db st1
    else if !st1.flushTimeout then
      ⟨.ok (), { st1 with flushTimeout := true }, []⟩
    else
      ⟨.ok (), st1, []⟩

/-- `AuditLogger.userAction`. -/
def userAction (h : Except String HeadersOracle) (db : DbOracle) (nowIso : String)
    (action : AuditAction) (userId : Option String) (metadata : Metadata)
    (success : Bool) (errorMessage : Option String) (st : LoggerState) : LoggerStep :=
  let context := getRequestContext h
  let entry : AuditLogEntry :=
    { timestamp := nowIso
      action := action
      severity := ACTION_SEVERITY action
      user_id := userId
      ip_address := context.ip
      user_agent := context.userAgent
      metadata := metadata
      success := success
      error_message := errorMessage }
  log db st entry

/-- `AuditLogger.dataModification`. -/
def dataModification (h : Except String HeadersOracle) (db : DbOracle) (nowIso : String)
    (action : AuditAction) (userId : Option String) (targetType : String)
    (targetId : String) (changes : List (String × String)) (success : Bool)
    (st : LoggerState) : LoggerStep :=
  let context := getRequestContext h
  let entry : AuditLogEntry :=
    { timestamp := nowIso
      action := action
      severity := ACTION_SEVERITY action
      user_id := userId
      target_type := some targetType
      target_id := some targetId
      ip_address := context.ip
      user_agent := context.userAgent
      metadata := [("changes", .strRecord changes)]
      success := success }
  log db st entry

/-- `AuditLogger.adminAction`. -/
def adminAction (h : Except String HeadersOracle) (db : DbOracle) (nowIso : String)
    (action : AuditAction) (adminUserId : String) (targetUserId : Option String)
    (metadata : Metadata) (st : LoggerState) : LoggerStep :=
  let context := getRequestContext h
  let entry : AuditLogEntry :=
    { timestamp := nowIso
      action := action
      severity := ACTION_SEVERITY action
      user_id := some adminUserId
      target_id := targetUserId
      target_type := some "user"
      ip_address := context.ip
      user_agent := context.userAgent
      metadata := metadata.filter (fun kv => kv.1 ≠ "admin_action") ++ [("admin_action", .b true)]
      success := true }
  log db st entry

/-- `AuditLogger.securityEvent`: always recorded with `success = false`. -/
def securityEvent (h : Except String HeadersOracle) (db : DbOracle) (nowIso : String)
    (action : AuditAction) (metadata : Metadata) (userId : Option String)
    (st : LoggerState) : LoggerStep :=
  let context := getRequestContext h
  let entry : AuditLogEntry :=
    { timestamp := nowIso
      action := action
      severity := ACTION_SEVERITY action
      user_id := userId
      ip_address := context.ip
      user_agent := context.userAgent
      metadata := metadata
      success := false }
  log db st entry

end AuditLogger

-- ─── Permission catalog (zero-trust.ts PERMISSIONS / ROLE_PERMISSIONS) ──

/-- `Object.values(PERMISSIONS)` in declaration order. -/
def PERMISSIONS_VALUES : List String :=
  ["profile:read", "profile:update", "reviews:create", "reviews:update:own",
   "reviews:delete:own",
   "reviews:update:any", "reviews:delete:any", "users:view",
   "users:manage", "roles:manage", "settings:manage", "audit:view"]

/-- `ROLE_PERMISSIONS.user`. -/
def userRolePermissions : List String :=
  ["profile:read", "profile:update", "reviews:create", "reviews:update:own",
   "reviews:delete:own"]

/-- `ROLE_PERMISSIONS.moderator`. -/
def moderatorRolePermissions : List String :=
  ["profile:read", "profile:update", "reviews:create", "reviews:update:own",
   "reviews:delete:own", "reviews:update:any", "reviews:delete:any", "users:view"]

/-- `ROLE_PERMISSIONS` as a partial map on role strings (a
`Record<string, Permission[]>` with exactly three keys). -/
def ROLE_PERMISSIONS : String → Option (List String) := fun role =>
  if role = "user" then some userRolePermissions
  else if role = "moderator" then some moderatorRolePermissions
  else if role = "admin" then some PERMISSIONS_VALUES
  else none

-- ─── Session verification (zero-trust.ts verifySession) ─────────────────

/-- The authenticated principal record `VerifiedUser`. The TypeScript
declaration types `role` as the closed union; at runtime the field holds
whatever string the unchecked cast lets through, so it is a `String`
here. -/
structure VerifiedUser where
  id : String
  email : String
  role : String
  permissions : List String
  sessionValid : Bool
  lastVerified : Nat
deriving Repr, DecidableEq

/-- The `user` object of `supabase.auth.getUser()`. -/
structure AuthUser where
  id : String
  email : Option String
deriving Repr, DecidableEq

/-- Shape of a `supabase.auth.getUser()` resolution: the `data.user` field
and whether the `error` field is non-null. -/
structure GetUserRes where
  user : Option AuthUser
  authError : Bool
deriving Repr, DecidableEq

/-- The `session` object of `supabase.auth.getSession()`: `expires_at` is
an epoch timestamp in seconds, possibly absent. -/
structure SessionData where
  expires_at : Option Nat
deriving Repr, DecidableEq

/-- A row of the `profiles` table restricted to the selected `role`
column, which may be null. -/
structure ProfileRow where
  role : Option String
deriving Repr, DecidableEq

/-- Oracle answers of the authentication/persistence collaborator used by
`verifySession`: each call either resolves (`.ok`) or rejects
(`.error`, a raised exception under `await`). -/
structure AuthCollab where
  createClientR : Except String Unit
  getUserR : Except String GetUserRes
  getSessionR : Except String (Option SessionData)
  signOutR : Except String Unit
  profileR : Except String (Option ProfileRow)
deriving Repr, DecidableEq

/-- Observable collaborator calls made during `verifySession`. -/
inductive AuthEffect
  | getUserCall | getSessionCall | signOutCall | profileCall
deriving Repr, DecidableEq

/-- `verifySession`: token check, session presence check, expiry check with
sign-out, database role lookup with default, permission computation.
Returns the JS outcome together with the trace of collaborator calls. -/
def verifySession (c : AuthCollab) (now : Nat) :
    Except String (Option VerifiedUser) × List AuthEffect :=
  match c.createClientR with
  | .error e => (.error e, [])
  | .ok _ =>
    match c.getUserR with
    | .error e => (.error e, [.getUserCall])
    | .ok gu =>
      if gu.authError || gu.user.isNone then (.ok none, [.getUserCall])
      else
        match gu.user with
        | none => (.ok none, [.getUserCall])
        | some user =>
          match c.getSessionR with
          | .error e => (.error e, [.getUserCall, .getSessionCall])
          | .ok none => (.ok none, [.getUserCall, .getSessionCall])
          | .ok (some session) =>
            let expiresAt := (session.expires_at.getD 0) * 1000
            if expiresAt < now then
              match c.signOutR with
              | .error e => (.error e, [.getUserCall, .getSessionCall, .signOutCall])
              | .ok _ => (.ok none, [.getUserCall, .getSessionCall, .signOutCall])
            else
              match c.profileR with
              | .error e => (.error e, [.getUserCall, .getSessionCall, .profileCall])
              | .ok profile =>
                let role := (profile.bind ProfileRow.role).getD "user"
                let permissions := (ROLE_PERMISSIONS role).getD userRolePermissions
                (.ok (some
                  { id := user.id
                    email := user.email.getD ""
                    role := role
                    permissions := permissions
                    sessionValid := true
                    lastVerified := now }),
                 [.getUserCall, .getSessionCall, .profileCall])

-- ─── Access checker (zero-trust.ts hasPermission/checkAccess etc.) ──────

/-- The `AccessCheck` result value. -/
structure AccessCheck where
  allowed : Bool
  reason : Option String := none
  user : Option VerifiedUser := none
deriving Repr, DecidableEq

/-- `hasPermission`: false when unverified, else membership in the cached
permission list. -/
def hasPermission (c : AuthCollab) (now : Nat) (permission : String) :
    Except String Bool :=
  match (verifySession c now).1 with
  | .error e => .error e
  | .ok none => .ok false
  | .ok (some u) => .ok (u.permissions.contains permission)

/-- `hasAnyPermission`: false when unverified, else `Array.prototype.some`
over the list. -/
def hasAnyPermission (c : AuthCollab) (now : Nat) (permissions : List String) :
    Except String Bool :=
  match (verifySession c now).1 with
  | .error e => .error e
  | .ok none => .ok false
  | .ok (some u) => .ok (permissions.any (fun p => u.permissions.contains p))

/-- `hasAllPermissions`: false when unverified, else `Array.prototype.every`
over the list. -/
def hasAllPermissions (c : AuthCollab) (now : Nat) (permissions : List String) :
    Except String Bool :=
  match (verifySession c now).1 with
  | .error e => .error e
  | .ok none => .ok false
  | .ok (some u) => .ok (permissions.all (fun p => u.permissions.contains p))

/-- `checkAccess`: non-throwing permission query. The optional permission
argument participates in a JS truthiness test, so the empty string behaves
like an absent argument. -/
def checkAccess (c : AuthCollab) (now : Nat) (permission : Option String) :
    Except String AccessCheck :=
  match (verifySession c now).1 with
  | .error e => .error e
  | .ok none => .ok { allowed := false, reason := some "Not authenticated" }
  | .ok (some u) =>
    match permission with
    | some p =>
      if p ≠ "" ∧ ¬ (u.permissions.contains p = true) then
        .ok { allowed := false, reason := some "Insufficient permissions", user := some u }
      else
        .ok { allowed := true, user := some u }
    | none => .ok { allowed := true, user := some u }

-- ─── Resource ownership guard (zero-trust.ts canAccessResource) ─────────

/-- A resource row restricted to the selected owning-identity column,
which may be null. -/
structure ResourceRow where
  user_id : Option String
deriving Repr, DecidableEq

/-- Oracle for the per-resource ownership lookup, keyed by table name and
row id. -/
def ResOracle : Type := String → String → Except String (Option ResourceRow)

/-- `canAccessResource`: admin bypass, ownership lookup, per-action rules.
The second component records whether the resource lookup was performed. -/
def canAccessResource (c : AuthCollab) (res : ResOracle) (now : Nat)
    (resourceType resourceId action : String) : Except String AccessCheck × Bool :=
  match (verifySession c now).1 with
  | .error e => (.error e, false)
  | .ok none => (.ok { allowed := false, reason := some "Not authenticated" }, false)
  | .ok (some user) =>
    if user.role = "admin" then (.ok { allowed := true, user := some user }, false)
    else
      match c.createClientR with
      | .error e => (.error e, false)
      | .ok _ =>
        match res resourceType resourceId with
        | .error e => (.error e, true)
        | .ok none =>
          (.ok { allowed := false, reason := some "Resource not found", user := some user }, true)
        | .ok (some resource) =>
          let isOwner := resource.user_id = some user.id
          if action = "read" then
            (.ok { allowed := true, user := some user }, true)
          else if action = "update" then
            (if isOwner then (.ok { allowed := true, user := some user }, true)
             else if user.role = "moderator" then (.ok { allowed := true, user := some user }, true)
             else (.ok { allowed := false, reason := some "Not resource owner", user := some user }, true))
          else if action = "delete" then
            (if isOwner then (.ok { allowed := true, user := some user }, true)
             else if user.role = "moderator" then (.ok { allowed := true, user := some user }, true)
             else (.ok { allowed := false, reason := some "Not resource owner", user := some user }, true))
          else
            (.ok { allowed := false, reason := some "Unknown action", user := some user }, true)

-- ─── Activity tracking (zero-trust.ts trackActivity/detectAnomalies) ────

/-- An `ActivityContext` record; `timestamp` is epoch milliseconds. -/
structure ActivityContext where
  userId : String
  action : String
  ipAddress : Option String := none
  timestamp : Nat
deriving Repr, DecidableEq

/-- The module-level `recentActivity` map, identity id to activity list. -/
def RecentActivity : Type := String → List ActivityContext

/-- A call `auditLog.securityEvent(action, metadata, userId)` made by the
anomaly detector. -/
structure SecurityEventCall where
  action : AuditAction
  metadata : Metadata
  userId : Option String
deriving Repr, DecidableEq

/-- `detectAnomalies`: evaluates the rapid-request and repeated-failure
rules over the trailing 5-minute window and returns the security events
emitted. -/
def detectAnomalies (now : Nat) (userId : String) (activities : List ActivityContext) :
    List SecurityEventCall :=
  let last5Minutes := activities.filter (fun a => now - a.timestamp < 5 * 60 * 1000)
  let rapid : List SecurityEventCall :=
    if 50 < last5Minutes.length then
      [{ action := .security_suspicious
         metadata := [("reason", .s "Rapid request rate"),
                      ("requestCount", .n last5Minutes.length),
                      ("timeWindow", .s "5 minutes")]
         userId := some userId }]
    else []
  let failedAttempts := last5Minutes.filter (fun a => strIncludes a.action "failed")
  let failures : List SecurityEventCall :=
    if 5 < failedAttempts.length then
      [{ action := .security_suspicious
         metadata := [("reason", .s "Multiple failed attempts"),
                      ("failedCount", .n failedAttempts.length),
                      ("timeWindow", .s "5 minutes")]
         userId := some userId }]
    else []
  rapid ++ failures

/-- `trackActivity`: FIFO-bounded append into the per-identity activity
list, then anomaly detection over the updated list. Returns the updated
map and the emitted security events. -/
def trackActivity (now : Nat) (recentActivity : RecentActivity) (context : ActivityContext) :
    RecentActivity × List SecurityEventCall :=
  let key := context.userId
  let activities0 := recentActivity key
  let activities1 := if 100 ≤ activities0.length then activities0.drop 1 else activities0
  let activities := activities1 ++ [context]
  (fun k => if k = key then activities else recentActivity k,
   detectAnomalies now context.userId activities)

-- ─── Helper lemmas: audit logger steps never raise ──────────────────────

lemma writeToDatabase_outcome_ok (db : DbOracle) (st : LoggerState)
    (entries : List AuditLogEntry) :
    (AuditLogger.writeToDatabase db st entries).outcome = .ok () := by
  unfold AuditLogger.writeToDatabase tryCatchE
  cases db entries <;> simp

lemma flush_outcome_ok (db : DbOracle) (st : LoggerState) :
    (AuditLogger.flush db st).outcome = .ok () := by
  unfold AuditLogger.flush
  dsimp only
  split
  · rfl
  · exact writeToDatabase_outcome_ok _ _ _

lemma log_outcome_ok (db : DbOracle) (st : LoggerState) (entry : AuditLogEntry) :
    (AuditLogger.log db st entry).outcome = .ok () := by
  unfold AuditLogger.log
  dsimp only
  split
  · exact writeToDatabase_outcome_ok _ _ _
  · split
    · exact flush_outcome_ok _ _
    · split <;> rfl

/-- C2: no public Audit Logger method (userAction, dataModification,
adminAction, securityEvent) ever raises to its caller, whatever the
header collaborator and the durable-storage insert do (return an error
value or raise): the JS outcome of every such call is a normal return. -/
theorem auditLogger_public_methods_never_throw
    (h : Except String HeadersOracle) (db : DbOracle) (nowIso : String)
    (action : AuditAction) (userId : Option String) (metadata : Metadata)
    (success : Bool) (errorMessage : Option String)
    (targetType targetId : String) (changes : List (String × String))
    (adminUserId : String) (targetUserId : Option String) (st : LoggerState) :
    (AuditLogger.userAction h db nowIso action userId metadata success errorMessage st).outcome
        = .ok () ∧
    (AuditLogger.dataModification h db nowIso action userId targetType targetId changes success st).outcome
        = .ok () ∧
    (AuditLogger.adminAction h db nowIso action adminUserId targetUserId metadata st).outcome
        = .ok () ∧
    (AuditLogger.securityEvent h db nowIso action metadata userId st).outcome
        = .ok () := by
  refine ⟨?_, ?_, ?_, ?_⟩ <;>
    first
      | exact log_outcome_ok _ _ _

/-- C4 counterexample: a non-critical entry logged through a public method
when nine entries are already buffered IS written to durable storage
within the same call (the size-triggered flush), refuting the claim that
a non-critical entry is never written immediately. -/
theorem auditLogger_noncritical_immediate_write_cex :
    ACTION_SEVERITY .auth_login ≠ .critical ∧
    (AuditLogger.userAction (.ok (fun _ => none)) (fun _ => .ok none) "t1"
        .auth_login none [] true none
        ⟨List.replicate 9
          { timestamp := "t0", action := .profile_view, severity := .info,
            user_id := none, ip_address := none, user_agent := none,
            metadata := [], success := true },
         false⟩).writes ≠ [] := by
  constructor
  · decide
  · decide

/-- C4 amended: a critical entry is written to durable storage immediately
as a singleton batch and is never appended to the buffer; a non-critical
entry is appended to the buffer and is not written immediately, unless
the append fills the buffer to its 10-entry capacity, in which case the
whole buffer (the entry included) is flushed to durable storage within
the same call. -/
theorem auditLog_dispatch_amended (db : DbOracle) (st : LoggerState)
    (entry : AuditLogEntry) :
    (entry.severity = .critical →
      (AuditLogger.log db st entry).writes = [[entry]] ∧
      (AuditLogger.log db st entry).state.buffer = st.buffer) ∧
    (entry.severity ≠ .critical ∧ st.buffer.length + 1 < BUFFER_SIZE →
      (AuditLogger.log db st entry).writes = [] ∧
      (AuditLogger.log db st entry).state.buffer = st.buffer ++ [entry]) ∧
    (entry.severity ≠ .critical ∧ BUFFER_SIZE ≤ st.buffer.length + 1 →
      (AuditLogger.log db st entry).writes = [st.buffer ++ [entry]] ∧
      (AuditLogger.log db st entry).state.buffer = []) := by
  refine ⟨?_, ?_, ?_⟩
  · intro hc
    unfold AuditLogger.log AuditLogger.writeToDatabase
    simp [hc]
  · rintro ⟨hnc, hlt⟩
    unfold AuditLogger.log
    dsimp only
    rw [if_neg hnc]
    have hflush : ¬ BUFFER_SIZE ≤ (st.buffer ++ [entry]).length := by
      simp only [List.length_append, List.length_cons, List.length_nil]
      omega
    rw [if_neg hflush]
    split <;> exact ⟨rfl, rfl⟩
  · rintro ⟨hnc, hge⟩
    unfold AuditLogger.log
    dsimp only
    rw [if_neg hnc]
    have hflush : BUFFER_SIZE ≤ (st.buffer ++ [entry]).length := by
      simp only [List.length_append, List.length_cons, List.length_nil]
      omega
    rw [if_pos hflush]
    unfold AuditLogger.flush AuditLogger.writeToDatabase
    dsimp only
    have hne : ¬ ((st.buffer ++ [entry]).length = 0) := by
      simp
    rw [if_neg hne]
    exact ⟨rfl, rfl⟩

/-- C4 amended witness: the three dispatch regimes exercised at concrete
inputs (a critical admin_role_change entry; an auth_login entry into an
empty buffer; an auth_login entry into a nine-entry buffer). -/
theorem auditLog_dispatch_amended_witness :
    ((AuditLogger.log (fun _ => .ok none) ⟨[], false⟩
        { timestamp := "t", action := .admin_role_change, severity := .critical,
          user_id := none, ip_address := none, user_agent := none,
          metadata := [], success := true }).writes
      = [[{ timestamp := "t", action := .admin_role_change, severity := .critical,
            user_id := none, ip_address := none, user_agent := none,
            metadata := [], success := true }]]) ∧
    ((AuditLogger.log (fun _ => .ok none) ⟨[], false⟩
        { timestamp := "t", action := .auth_login, severity := .info,
          user_id := none, ip_address := none, user_agent := none,
          metadata := [], success := true }).writes = []) ∧
    ((AuditLogger.log (fun _ => .ok none)
        ⟨List.replicate 9
          { timestamp := "t0", action := .profile_view, severity := .info,
            user_id := none, ip_address := none, user_agent := none,
            metadata := [], success := true },
         false⟩
        { timestamp := "t", action := .auth_login, severity := .info,
          user_id := none, ip_address := none, user_agent := none,
          metadata := [], success := true }).state.buffer = []) :=
  ⟨((auditLog_dispatch_amended _ _ _).1 rfl).1,
   ((auditLog_dispatch_amended _ _ _).2.1 ⟨by decide, by decide⟩).1,
   ((auditLog_dispatch_amended _ _ _).2.2 ⟨by decide, by decide⟩).2⟩

-- ─── Claims about verifySession ─────────────────────────────────────────

/-- C1 counterexample: a collaborator whose token check rejects (raises)
makes `verifySession` propagate the exception to its caller instead of
returning null — the function body contains no exception handler. -/
theorem verifySession_throwing_collaborator_cex :
    (verifySession
      { createClientR := .ok (), getUserR := .error "network error",
        getSessionR := .ok none, signOutR := .ok (), profileR := .ok none } 0).1
      = .error "network error" := by
  decide

/-- Collaborator whose token check reports an auth error as a value. -/
def collabAuthErrorValue : AuthCollab :=
  { createClientR := .ok (), getUserR := .ok ⟨none, true⟩,
    getSessionR := .ok none, signOutR := .ok (), profileR := .ok none }

/-- Collaborator whose token check resolves with no user and no error. -/
def collabMissingUser : AuthCollab :=
  { createClientR := .ok (), getUserR := .ok ⟨none, false⟩,
    getSessionR := .ok none, signOutR := .ok (), profileR := .ok none }

/-- Collaborator with a valid user but no current session. -/
def collabMissingSession : AuthCollab :=
  { createClientR := .ok (), getUserR := .ok ⟨some ⟨"u1", none⟩, false⟩,
    getSessionR := .ok none, signOutR := .ok (), profileR := .ok none }

/-- Collaborator on which every call resolves, with an unexpired session. -/
def collabAllResolve : AuthCollab :=
  { createClientR := .ok (), getUserR := .ok ⟨some ⟨"u1", some "e"⟩, false⟩,
    getSessionR := .ok (some ⟨some 1⟩), signOutR := .ok (),
    profileR := .ok (some ⟨some "user"⟩) }

/-- Collaborator whose client construction raises. -/
def collabCreateClientRaise : AuthCollab :=
  { createClientR := .error "boom", getUserR := .ok ⟨none, false⟩,
    getSessionR := .ok none, signOutR := .ok (), profileR := .ok none }

/-- Collaborator whose token check raises. -/
def collabGetUserRaise : AuthCollab :=
  { createClientR := .ok (), getUserR := .error "network down",
    getSessionR := .ok none, signOutR := .ok (), profileR := .ok none }

/-- Collaborator whose session fetch raises. -/
def collabGetSessionRaise : AuthCollab :=
  { createClientR := .ok (), getUserR := .ok ⟨some ⟨"u1", none⟩, false⟩,
    getSessionR := .error "session fetch failed", signOutR := .ok (),
    profileR := .ok none }

/-- Collaborator whose sign-out raises, with an expired session. -/
def collabSignOutRaise : AuthCollab :=
  { createClientR := .ok (), getUserR := .ok ⟨some ⟨"u1", none⟩, false⟩,
    getSessionR := .ok (some ⟨some 3⟩), signOutR := .error "sign out failed",
    profileR := .ok none }

/-- Collaborator whose role lookup raises, with an unexpired session. -/
def collabProfileRaise : AuthCollab :=
  { createClientR := .ok (), getUserR := .ok ⟨some ⟨"u1", none⟩, false⟩,
    getSessionR := .ok (some ⟨some 1⟩), signOutR := .ok (),
    profileR := .error "role lookup failed" }

/-- C1 amended: `verifySession` converts collaborator failures that are
reported as error values into a null return — a reported auth error or a
missing user from the token check, and a missing session from the session
fetch, each yield `null` — and when every collaborator call resolves
without raising it always returns a value; but an exception raised by the
authentication collaborator (client construction, token check, session
fetch, sign-out) or by the database role lookup propagates to the caller,
since the function body contains no exception handler. -/
theorem verifySession_fail_closed_amended (c : AuthCollab) (now : Nat) :
    (∀ gu : GetUserRes, c.createClientR = .ok () → c.getUserR = .ok gu →
      (gu.authError = true ∨ gu.user = none) →
      (verifySession c now).1 = .ok none) ∧
    (∀ (gu : GetUserRes) (au : AuthUser), c.createClientR = .ok () →
      c.getUserR = .ok gu → gu.authError = false → gu.user = some au →
      c.getSessionR = .ok none →
      (verifySession c now).1 = .ok none) ∧
    (∀ (gu : GetUserRes) (so : Option SessionData) (po : Option ProfileRow),
      c.createClientR = .ok () → c.getUserR = .ok gu → c.getSessionR = .ok so →
      c.signOutR = .ok () → c.profileR = .ok po →
      ∃ r, (verifySession c now).1 = .ok r) ∧
    (∀ e : String, c.createClientR = .error e →
      (verifySession c now).1 = .error e) ∧
    (∀ e : String, c.createClientR = .ok () → c.getUserR = .error e →
      (verifySession c now).1 = .error e) ∧
    (∀ (gu : GetUserRes) (au : AuthUser) (e : String), c.createClientR = .ok () →
      c.getUserR = .ok gu → gu.authError = false → gu.user = some au →
      c.getSessionR = .error e →
      (verifySession c now).1 = .error e) ∧
    (∀ (gu : GetUserRes) (au : AuthUser) (s : SessionData) (e : String),
      c.createClientR = .ok () → c.getUserR = .ok gu → gu.authError = false →
      gu.user = some au → c.getSessionR = .ok (some s) →
      (s.expires_at.getD 0) * 1000 < now → c.signOutR = .error e →
      (verifySession c now).1 = .error e) ∧
    (∀ (gu : GetUserRes) (au : AuthUser) (s : SessionData) (e : String),
      c.createClientR = .ok () → c.getUserR = .ok gu → gu.authError = false →
      gu.user = some au → c.getSessionR = .ok (some s) →
      ¬ ((s.expires_at.getD 0) * 1000 < now) → c.profileR = .error e →
      (verifySession c now).1 = .error e) := by
  refine ⟨?_, ?_, ?_, ?_, ?_, ?_, ?_, ?_⟩
  · intro gu h0 h1 hor
    unfold verifySession
    rw [h0, h1]
    rcases gu with ⟨u, ae⟩
    rcases hor with hae | hu
    · simp only at hae
      subst hae
      simp
    · simp only at hu
      subst hu
      simp
  · intro gu au h0 h1 hae hau hs
    unfold verifySession
    rw [h0, h1, hs]
    rcases gu with ⟨u, ae⟩
    simp only at hae hau
    subst hae
    subst hau
    simp
  · intro gu so po h0 h1 h2 h3 h4
    unfold verifySession
    rw [h0, h1, h2, h3, h4]
    dsimp only
    rcases gu with ⟨u, ae⟩
    cases ae
    · cases u with
      | none => exact ⟨none, rfl⟩
      | some user =>
        cases so with
        | none => exact ⟨none, rfl⟩
        | some session =>
          dsimp only
          by_cases hexp : (session.expires_at.getD 0) * 1000 < now
          · rw [if_pos hexp]
            exact ⟨none, rfl⟩
          · rw [if_neg hexp]
            exact ⟨_, rfl⟩
    · exact ⟨none, rfl⟩
  · intro e h0
    unfold verifySession
    rw [h0]
  · intro e h0 h1
    unfold verifySession
    rw [h0, h1]
  · intro gu au e h0 h1 hae hau hs
    unfold verifySession
    rw [h0, h1, hs]
    rcases gu with ⟨u, ae⟩
    simp only at hae hau
    subst hae
    subst hau
    simp
  · intro gu au s e h0 h1 hae hau hs hexp hso
    unfold verifySession
    rw [h0, h1, hs, hso]
    rcases gu with ⟨u, ae⟩
    simp only at hae hau
    subst hae
    subst hau
    simp [hexp]
  · intro gu au s e h0 h1 hae hau hs hnexp hp
    unfold verifySession
    rw [h0, h1, hs, hp]
    rcases gu with ⟨u, ae⟩
    simp only at hae hau
    subst hae
    subst hau
    simp [hnexp]

/-- C1 amended witness: each clause of the amended statement exercised at a
concrete collaborator — auth-error value, missing user and missing
session all convert to null; an all-resolving collaborator returns a
value; and a raise from client construction, token check, session fetch,
sign-out (expired session) or role lookup (live session) propagates. -/
theorem verifySession_fail_closed_amended_witness :
    ((verifySession collabAuthErrorValue 7).1 = .ok none) ∧
    ((verifySession collabMissingUser 7).1 = .ok none) ∧
    ((verifySession collabMissingSession 7).1 = .ok none) ∧
    (∃ r, (verifySession collabAllResolve 500).1 = .ok r) ∧
    ((verifySession collabCreateClientRaise 7).1 = .error "boom") ∧
    ((verifySession collabGetUserRaise 7).1 = .error "network down") ∧
    ((verifySession collabGetSessionRaise 7).1 = .error "session fetch failed") ∧
    ((verifySession collabSignOutRaise 4000).1 = .error "sign out failed") ∧
    ((verifySession collabProfileRaise 500).1 = .error "role lookup failed") :=
  ⟨(verifySession_fail_closed_amended collabAuthErrorValue 7).1
      ⟨none, true⟩ rfl rfl (Or.inl rfl),
   (verifySession_fail_closed_amended collabMissingUser 7).1
      ⟨none, false⟩ rfl rfl (Or.inr rfl),
   (verifySession_fail_closed_amended collabMissingSession 7).2.1
      ⟨some ⟨"u1", none⟩, false⟩ ⟨"u1", none⟩ rfl rfl rfl rfl rfl,
   (verifySession_fail_closed_amended collabAllResolve 500).2.2.1
      ⟨some ⟨"u1", some "e"⟩, false⟩ (some ⟨some 1⟩) (some ⟨some "user"⟩)
      rfl rfl rfl rfl rfl,
   (verifySession_fail_closed_amended collabCreateClientRaise 7).2.2.2.1
      "boom" rfl,
   (verifySession_fail_closed_amended collabGetUserRaise 7).2.2.2.2.1
      "network down" rfl rfl,
   (verifySession_fail_closed_amended collabGetSessionRaise 7).2.2.2.2.2.1
      ⟨some ⟨"u1", none⟩, false⟩ ⟨"u1", none⟩ "session fetch failed"
      rfl rfl rfl rfl rfl,
   (verifySession_fail_closed_amended collabSignOutRaise 4000).2.2.2.2.2.2.1
      ⟨some ⟨"u1", none⟩, false⟩ ⟨"u1", none⟩ ⟨some 3⟩ "sign out failed"
      rfl rfl rfl rfl rfl (by decide) rfl,
   (verifySession_fail_closed_amended collabProfileRaise 500).2.2.2.2.2.2.2
      ⟨some ⟨"u1", none⟩, false⟩ ⟨"u1", none⟩ ⟨some 1⟩ "role lookup failed"
      rfl rfl rfl rfl rfl (by decide) rfl⟩

/-- C3: evaluation at the failing input. A valid, unexpired session whose
persisted profile role is the unrecognized string "superadmin" yields a
VerifiedUser whose role field is "superadmin" — outside the closed
enumeration and not the claimed default "user" — while the permissions
fall back to the user role's permission set. -/
theorem verifySession_unrecognized_role_preserved :
    (verifySession
      { createClientR := .ok (),
        getUserR := .ok ⟨some ⟨"u1", some "u1@example.com"⟩, false⟩,
        getSessionR := .ok (some ⟨some 1⟩),
        signOutR := .ok (),
        profileR := .ok (some ⟨some "superadmin"⟩) } 500).1
      = .ok (some
        { id := "u1", email := "u1@example.com", role := "superadmin",
          permissions := userRolePermissions, sessionValid := true,
          lastVerified := 500 }) ∧
    ("superadmin" ∈ (["user", "moderator", "admin"] : List String)) = False := by
  constructor
  · decide
  · simp

/-- C6: a session that passes token validation but whose expiry timestamp
is in the past makes `verifySession` perform exactly one sign-out call on
the authentication collaborator and return null. -/
theorem verifySession_expired_signs_out_once
    (c : AuthCollab) (now t : Nat) (gu : GetUserRes) (au : AuthUser) (s : SessionData)
    (h0 : c.createClientR = .ok ())
    (h1 : c.getUserR = .ok gu) (h2 : gu.authError = false) (h3 : gu.user = some au)
    (h4 : c.getSessionR = .ok (some s))
    (h5 : s.expires_at = some t) (h6 : t * 1000 < now)
    (h7 : c.signOutR = .ok ()) :
    (verifySession c now).1 = .ok none ∧
    ((verifySession c now).2.count .signOutCall) = 1 := by
  unfold verifySession
  rw [h0, h1, h4, h7]
  rcases gu with ⟨u, ae⟩
  simp only at h2 h3
  subst h2
  subst h3
  have hexp : (s.expires_at.getD 0) * 1000 < now := by
    rw [h5]
    exact h6
  simp [hexp, List.count_cons]

/-- C6 witness: a concrete collaborator with a session expired one second
before the current time signs out exactly once and returns null. -/
theorem verifySession_expired_signs_out_once_witness :
    (verifySession
      { createClientR := .ok (),
        getUserR := .ok ⟨some ⟨"u1", some "u1@example.com"⟩, false⟩,
        getSessionR := .ok (some ⟨some 3⟩),
        signOutR := .ok (),
        profileR := .ok (some ⟨some "user"⟩) } 4000).1 = .ok none ∧
    ((verifySession
      { createClientR := .ok (),
        getUserR := .ok ⟨some ⟨"u1", some "u1@example.com"⟩, false⟩,
        getSessionR := .ok (some ⟨some 3⟩),
        signOutR := .ok (),
        profileR := .ok (some ⟨some "user"⟩) } 4000).2.count .signOutCall) = 1 :=
  verifySession_expired_signs_out_once
    { createClientR := .ok (),
      getUserR := .ok ⟨some ⟨"u1", some "u1@example.com"⟩, false⟩,
      getSessionR := .ok (some ⟨some 3⟩),
      signOutR := .ok (),
      profileR := .ok (some ⟨some "user"⟩) }
    4000 3 ⟨some ⟨"u1", some "u1@example.com"⟩, false⟩
    ⟨"u1", some "u1@example.com"⟩ ⟨some 3⟩ rfl rfl rfl rfl rfl rfl (by decide) rfl

-- ─── Claims about the access checker ────────────────────────────────────

/-- C8: for every permission of the catalog and a fixed underlying session
state, `hasPermission` answers true exactly when `checkAccess` on the
same permission reports `allowed` (and both propagate the same
exception when verification throws). -/
theorem hasPermission_checkAccess_consistent
    (c : AuthCollab) (now : Nat) (p : String) (hp : p ∈ PERMISSIONS_VALUES) :
    hasPermission c now p = (checkAccess c now (some p)).map AccessCheck.allowed := by
  have hne : p ≠ "" := by
    unfold PERMISSIONS_VALUES at hp
    fin_cases hp <;> decide
  unfold hasPermission checkAccess
  cases hres : (verifySession c now).1 with
  | error e => rfl
  | ok o =>
    cases o with
    | none => rfl
    | some u =>
      dsimp only
      by_cases hcont : u.permissions.contains p = true
      · have hnot : ¬ (p ≠ "" ∧ ¬ (u.permissions.contains p = true)) := by
          intro hand
          exact hand.2 hcont
        rw [if_neg hnot, hcont]
        rfl
      · rw [if_pos ⟨hne, hcont⟩]
        simp only [Bool.not_eq_true] at hcont
        rw [hcont]
        rfl

/-- C8 witness: the consistency instantiated for the permission
"profile:read" against a collaborator with no authenticated user. -/
theorem hasPermission_checkAccess_consistent_witness :
    hasPermission
      { createClientR := .ok (), getUserR := .ok ⟨none, false⟩,
        getSessionR := .ok none, signOutR := .ok (), profileR := .ok none } 3
      "profile:read"
      = (checkAccess
          { createClientR := .ok (), getUserR := .ok ⟨none, false⟩,
            getSessionR := .ok none, signOutR := .ok (), profileR := .ok none } 3
          (some "profile:read")).map AccessCheck.allowed :=
  hasPermission_checkAccess_consistent _ 3 "profile:read" (by decide)

/-- C10: for a verified session, `hasAllPermissions` on the empty list is
true and `hasAnyPermission` on the empty list is false; for an
unauthenticated session both are false on every list. -/
theorem permission_queries_on_empty_list
    (c : AuthCollab) (now : Nat) :
    ((∃ u, (verifySession c now).1 = .ok (some u)) →
      hasAllPermissions c now [] = .ok true ∧ hasAnyPermission c now [] = .ok false) ∧
    ((verifySession c now).1 = .ok none →
      ∀ ps : List String,
        hasAllPermissions c now ps = .ok false ∧ hasAnyPermission c now ps = .ok false) := by
  constructor
  · rintro ⟨u, hu⟩
    unfold hasAllPermissions hasAnyPermission
    rw [hu]
    exact ⟨rfl, rfl⟩
  · intro hn ps
    unfold hasAllPermissions hasAnyPermission
    rw [hn]
    exact ⟨rfl, rfl⟩

/-- C10 witness: the vacuous-quantifier behavior at a verified collaborator
and the all-false behavior at an unauthenticated one. -/
theorem permission_queries_on_empty_list_witness :
    (hasAllPermissions
      { createClientR := .ok (),
        getUserR := .ok ⟨some ⟨"u1", some "u1@example.com"⟩, false⟩,
        getSessionR := .ok (some ⟨some 1⟩),
        signOutR := .ok (), profileR := .ok (some ⟨some "user"⟩) } 500 []
      = .ok true ∧
     hasAnyPermission
      { createClientR := .ok (),
        getUserR := .ok ⟨some ⟨"u1", some "u1@example.com"⟩, false⟩,
        getSessionR := .ok (some ⟨some 1⟩),
        signOutR := .ok (), profileR := .ok (some ⟨some "user"⟩) } 500 []
      = .ok false) ∧
    (hasAllPermissions
      { createClientR := .ok (), getUserR := .ok ⟨none, false⟩,
        getSessionR := .ok none, signOutR := .ok (), profileR := .ok none } 9
      ["profile:read"] = .ok false ∧
     hasAnyPermission
      { createClientR := .ok (), getUserR := .ok ⟨none, false⟩,
        getSessionR := .ok none, signOutR := .ok (), profileR := .ok none } 9
      ["profile:read"] = .ok false) :=
  ⟨(permission_queries_on_empty_list _ 500).1
      ⟨{ id := "u1", email := "u1@example.com", role := "user",
         permissions := userRolePermissions, sessionValid := true,
         lastVerified := 500 }, by decide⟩,
   (permission_queries_on_empty_list _ 9).2 (by decide) ["profile:read"]⟩

-- ─── Claims about the resource ownership guard ──────────────────────────

lemma verifySession_ok_createClient (c : AuthCollab) (now : Nat)
    (r : Option VerifiedUser) (h : (verifySession c now).1 = .ok r) :
    c.createClientR = .ok () := by
  unfold verifySession at h
  cases hcc : c.createClientR with
  | error e =>
    rw [hcc] at h
    exact absurd h (by simp)
  | ok u =>
    cases u
    rfl

/-- C9: a verified admin caller short-circuits `canAccessResource` to an
allowed result without any resource lookup, for every resource type,
every resource id (existing or not) and every action string. -/
theorem canAccessResource_admin_bypass
    (c : AuthCollab) (res : ResOracle) (now : Nat)
    (resourceType resourceId action : String) (u : VerifiedUser)
    (hv : (verifySession c now).1 = .ok (some u))
    (hadmin : u.role = "admin") :
    canAccessResource c res now resourceType resourceId action
      = (.ok { allowed := true, user := some u }, false) := by
  unfold canAccessResource
  rw [hv]
  dsimp only
  rw [if_pos hadmin]

/-- C9 witness: an admin caller, a resource oracle that raises, an unknown
action string and a nonexistent id still produce the allowed result with
no lookup. -/
theorem canAccessResource_admin_bypass_witness :
    canAccessResource
      { createClientR := .ok (),
        getUserR := .ok ⟨some ⟨"a1", some "admin@example.com"⟩, false⟩,
        getSessionR := .ok (some ⟨some 1⟩),
        signOutR := .ok (), profileR := .ok (some ⟨some "admin"⟩) }
      (fun _ _ => .error "database down") 500 "reviews" "no-such-id" "frobnicate"
      = (.ok { allowed := true,
               user := some
                 { id := "a1", email := "admin@example.com", role := "admin",
                   permissions := PERMISSIONS_VALUES, sessionValid := true,
                   lastVerified := 500 } }, false) :=
  canAccessResource_admin_bypass _ _ 500 "reviews" "no-such-id" "frobnicate" _
    (by decide) rfl

/-- C5: for a verified caller whose role is neither admin nor moderator and
an existing resource, update/delete access is granted exactly to the
owner and denied with reason "Not resource owner" otherwise; a verified
moderator is granted update/delete on every existing resource. -/
theorem canAccessResource_ownership
    (c : AuthCollab) (res : ResOracle) (now : Nat)
    (resourceType resourceId action : String) (u : VerifiedUser) (r : ResourceRow)
    (hv : (verifySession c now).1 = .ok (some u))
    (hr : res resourceType resourceId = .ok (some r))
    (ha : action = "update" ∨ action = "delete") :
    (u.role ≠ "admin" → u.role ≠ "moderator" →
      ((r.user_id = some u.id →
         (canAccessResource c res now resourceType resourceId action).1
           = .ok { allowed := true, user := some u }) ∧
       (r.user_id ≠ some u.id →
         (canAccessResource c res now resourceType resourceId action).1
           = .ok { allowed := false, reason := some "Not resource owner",
                   user := some u }))) ∧
    (u.role = "moderator" →
      (canAccessResource c res now resourceType resourceId action).1
        = .ok { allowed := true, user := some u }) := by
  have hcc := verifySession_ok_createClient c now _ hv
  unfold canAccessResource
  rw [hv, hcc, hr]
  dsimp only
  constructor
  · intro hna hnm
    rw [if_neg hna]
    rcases ha with ha | ha <;> subst ha
    · rw [if_neg (by decide), if_pos rfl]
      constructor
      · intro howner
        rw [if_pos howner]
      · intro hnown
        rw [if_neg hnown, if_neg hnm]
    · rw [if_neg (by decide), if_neg (by decide), if_pos rfl]
      constructor
      · intro howner
        rw [if_pos howner]
      · intro hnown
        rw [if_neg hnown, if_neg hnm]
  · intro hm
    have hna : ¬ (u.role = "admin") := by
      rw [hm]
      decide
    rw [if_neg hna]
    rcases ha with ha | ha <;> subst ha
    · rw [if_neg (by decide), if_pos rfl]
      by_cases howner : r.user_id = some u.id
      · rw [if_pos howner]
      · rw [if_neg howner, if_pos hm]
    · rw [if_neg (by decide), if_neg (by decide), if_pos rfl]
      by_cases howner : r.user_id = some u.id
      · rw [if_pos howner]
      · rw [if_neg howner, if_pos hm]

/-- C5 witness: a user-role owner is allowed to update, a user-role
non-owner is denied with "Not resource owner", and a moderator non-owner
is allowed to delete. -/
theorem canAccessResource_ownership_witness :
    ((canAccessResource
      { createClientR := .ok (),
        getUserR := .ok ⟨some ⟨"u1", some "u1@example.com"⟩, false⟩,
        getSessionR := .ok (some ⟨some 1⟩),
        signOutR := .ok (), profileR := .ok (some ⟨some "user"⟩) }
      (fun _ _ => .ok (some ⟨some "u1"⟩)) 500 "reviews" "r1" "update").1
      = .ok { allowed := true,
              user := some
                { id := "u1", email := "u1@example.com", role := "user",
                  permissions := userRolePermissions, sessionValid := true,
                  lastVerified := 500 } }) ∧
    ((canAccessResource
      { createClientR := .ok (),
        getUserR := .ok ⟨some ⟨"u1", some "u1@example.com"⟩, false⟩,
        getSessionR := .ok (some ⟨some 1⟩),
        signOutR := .ok (), profileR := .ok (some ⟨some "user"⟩) }
      (fun _ _ => .ok (some ⟨some "u2"⟩)) 500 "reviews" "r1" "update").1
      = .ok { allowed := false, reason := some "Not resource owner",
              user := some
                { id := "u1", email := "u1@example.com", role := "user",
                  permissions := userRolePermissions, sessionValid := true,
                  lastVerified := 500 } }) ∧
    ((canAccessResource
      { createClientR := .ok (),
        getUserR := .ok ⟨some ⟨"m1", some "mod@example.com"⟩, false⟩,
        getSessionR := .ok (some ⟨some 1⟩),
        signOutR := .ok (), profileR := .ok (some ⟨some "moderator"⟩) }
      (fun _ _ => .ok (some ⟨some "u2"⟩)) 500 "reviews" "r1" "delete").1
      = .ok { allowed := true,
              user := some
                { id := "m1", email := "mod@example.com", role := "moderator",
                  permissions := moderatorRolePermissions, sessionValid := true,
                  lastVerified := 500 } }) :=
  ⟨(((canAccessResource_ownership _ _ 500 "reviews" "r1" "update" _ ⟨some "u1"⟩
        (by decide) rfl (Or.inl rfl)).1 (by decide) (by decide)).1 (by decide)),
   (((canAccessResource_ownership _ _ 500 "reviews" "r1" "update" _ ⟨some "u2"⟩
        (by decide) rfl (Or.inl rfl)).1 (by decide) (by decide)).2 (by decide)),
   ((canAccessResource_ownership _ _ 500 "reviews" "r1" "delete" _ ⟨some "u2"⟩
        (by decide) rfl (Or.inr rfl)).2 (by decide))⟩

-- ─── Claim about the activity tracker ───────────────────────────────────

lemma detectAnomalies_rapid_filter (now : Nat) (uid : String)
    (acts : List ActivityContext) :
    (50 < (acts.filter (fun a => now - a.timestamp < 5 * 60 * 1000)).length →
      (detectAnomalies now uid acts).filter
        (fun ev => ev.metadata.lookup "reason" == some (MetaVal.s "Rapid request rate"))
        = [{ action := .security_suspicious,
             metadata := [("reason", .s "Rapid request rate"),
                          ("requestCount",
                           .n (acts.filter (fun a => now - a.timestamp < 5 * 60 * 1000)).length),
                          ("timeWindow", .s "5 minutes")],
             userId := some uid }]) ∧
    ((acts.filter (fun a => now - a.timestamp < 5 * 60 * 1000)).length ≤ 50 →
      (detectAnomalies now uid acts).filter
        (fun ev => ev.metadata.lookup "reason" == some (MetaVal.s "Rapid request rate"))
        = []) := by
  unfold detectAnomalies
  dsimp only
  constructor
  · intro h50
    rw [if_pos h50]
    by_cases hf : 5 < ((acts.filter (fun a => now - a.timestamp < 5 * 60 * 1000)).filter
        (fun a => strIncludes a.action "failed")).length
    · rw [if_pos hf]
      rfl
    · rw [if_neg hf]
      rfl
  · intro h50
    have hnot : ¬ 50 < (acts.filter (fun a => now - a.timestamp < 5 * 60 * 1000)).length := by
      omega
    rw [if_neg hnot]
    by_cases hf : 5 < ((acts.filter (fun a => now - a.timestamp < 5 * 60 * 1000)).filter
        (fun a => strIncludes a.action "failed")).length
    · rw [if_pos hf]
      rfl
    · rw [if_neg hf]
      rfl

/-- C7: when, after a `trackActivity` call, the stored entries for the
caller's identity contain more than 50 entries inside the trailing
5-minute window, that call emits exactly one security_suspicious event
whose metadata is the rapid-request payload with the window count; with
50 or fewer entries in the window, no rapid-rate event is emitted. -/
theorem trackActivity_rapid_rate (now : Nat) (m : RecentActivity)
    (ctx : ActivityContext) :
    (50 < (((trackActivity now m ctx).1 ctx.userId).filter
        (fun a => now - a.timestamp < 5 * 60 * 1000)).length →
      ((trackActivity now m ctx).2.filter
        (fun ev => ev.metadata.lookup "reason" == some (MetaVal.s "Rapid request rate")))
        = [{ action := .security_suspicious,
             metadata := [("reason", .s "Rapid request rate"),
                          ("requestCount",
                           .n (((trackActivity now m ctx).1 ctx.userId).filter
                                (fun a => now - a.timestamp < 5 * 60 * 1000)).length),
                          ("timeWindow", .s "5 minutes")],
             userId := some ctx.userId }]) ∧
    ((((trackActivity now m ctx).1 ctx.userId).filter
        (fun a => now - a.timestamp < 5 * 60 * 1000)).length ≤ 50 →
      ((trackActivity now m ctx).2.filter
        (fun ev => ev.metadata.lookup "reason" == some (MetaVal.s "Rapid request rate")))
        = []) := by
  have hkey : (trackActivity now m ctx).1 ctx.userId
      = (if 100 ≤ (m ctx.userId).length then (m ctx.userId).drop 1 else m ctx.userId)
          ++ [ctx] := by
    unfold trackActivity
    dsimp only
    rw [if_pos rfl]
  have hsnd : (trackActivity now m ctx).2
      = detectAnomalies now ctx.userId
          ((if 100 ≤ (m ctx.userId).length then (m ctx.userId).drop 1 else m ctx.userId)
            ++ [ctx]) := rfl
  rw [hkey, hsnd]
  exact detectAnomalies_rapid_filter now ctx.userId _

/-- C7 witness: 51 entries inside the window produce exactly the
rapid-request event with requestCount 51; a single entry produces no
rapid-rate event. -/
theorem trackActivity_rapid_rate_witness :
    (((trackActivity 100 (fun _ => List.replicate 50 ⟨"u1", "act", none, 100⟩)
        ⟨"u1", "act", none, 100⟩).2.filter
        (fun ev => ev.metadata.lookup "reason" == some (MetaVal.s "Rapid request rate")))
      = [{ action := .security_suspicious,
           metadata := [("reason", .s "Rapid request rate"),
                        ("requestCount", .n 51),
                        ("timeWindow", .s "5 minutes")],
           userId := some "u1" }]) ∧
    (((trackActivity 100 (fun _ => []) ⟨"u1", "act", none, 100⟩).2.filter
        (fun ev => ev.metadata.lookup "reason" == some (MetaVal.s "Rapid request rate")))
      = []) :=
  ⟨((trackActivity_rapid_rate 100 (fun _ => List.replicate 50 ⟨"u1", "act", none, 100⟩)
      ⟨"u1", "act", none, 100⟩).1 (by decide)).trans (by decide),
   (trackActivity_rapid_rate 100 (fun _ => []) ⟨"u1", "act", none, 100⟩).2 (by decide)⟩
